import Mathlib

/-!
Shallow embedding of the nameApp queue service
(src/queue-service.js, src/bull-queue-service.js, src/monday-api-service.js).

Redis effects are modelled by explicit state passing over `QState` (the main
queue and the dead-letter queue as lists, rpush appends to the tail, blpop
pops the head).  Fallibility of the store is modelled by boolean parameters:
`connOk` stands for `ensureConnection` succeeding, `pushOk` for an `rpush`
call returning a truthy result rather than throwing.  The external Monday
collaborator (`fetchBoardColumns` / `fetchColumnValues` / `updateItemName`)
is an oracle `collab : RawItem -> Except String Unit`: `.ok` means the
processing pipeline succeeded, `.error e` means some step threw with message
`e`.  JavaScript timestamps are `Nat` epoch milliseconds; a missing or falsy
`metadata.timestamp` is modelled as `0` (both `undefined` and `0` are falsy
in the guard `messageTimestamp && ...`).
-/

namespace NameApp

/-- Constants from src/queue-service.js. -/
def MAX_RETRIES : Nat := 3

def RETRY_DELAY : Nat := 5000

def BATCH_SIZE : Nat := 10

def CONCURRENT_BATCHES : Nat := 3

def tenMinutesInMs : Nat := 10 * 60 * 1000

/-- The `inputFields` object of a raw item; a field that is absent is `none`,
a present but possibly empty string is `some s`. -/
structure InputFields where
  boardId : Option String
  itemId : Option String
  text : Option String
deriving Repr, DecidableEq

/-- A parsed raw item as consumed by `validateMessage` / `produceMessage`. -/
structure RawItem where
  shortLivedToken : Option String
  inputFields : Option InputFields
deriving Repr, DecidableEq

/-- JavaScript truthiness of an optional string field: present and non-empty. -/
def truthy : Option String → Bool
  | none => false
  | some s => s ≠ ""

/-- src/queue-service.js `validateMessage`: JSON.parse (a `none` argument is a
parse failure, caught and turned into `false`) followed by the truthiness
conjunction over `shortLivedToken`, `inputFields.boardId`, `inputFields.itemId`
and `inputFields.text`. -/
def validateMessage : Option RawItem → Bool
  | none => false
  | some p =>
      truthy p.shortLivedToken &&
        (match p.inputFields with
         | none => false
         | some f => truthy f.boardId && truthy f.itemId && truthy f.text)

/-- The `metadata` object stamped by `produceMessage` and mutated by
`retryMessage`. -/
structure Metadata where
  timestamp : Nat
  retryCount : Nat
  actId : Option String
deriving Repr, DecidableEq

/-- A message as stored on the queue: `{ payload, metadata }`. -/
structure StoredMessage where
  payload : RawItem
  metadata : Metadata
deriving Repr, DecidableEq

/-- A dead-letter record `{ originalMessage, error, timestamp }`; the original
message is kept as popped (its retryCount is not the incremented one, because
`moveToDeadLetterQueue` receives the raw `messageData` string). -/
structure DLQRecord where
  originalMessage : StoredMessage
  error : String
  timestamp : Nat
deriving Repr, DecidableEq

/-- The Redis state visible to queue-service.js: the main queue list and the
dead-letter queue list, heads first. -/
structure QState where
  main : List StoredMessage
  dlq : List DLQRecord
deriving Repr, DecidableEq

/-- src/queue-service.js `moveToDeadLetterQueue`: on a live connection and a
successful rpush the record is appended to the DLQ tail; every failure inside
is caught and only logged, leaving the state unchanged. -/
def moveToDeadLetterQueue (connOk pushOk : Bool) (now : Nat)
    (msg : StoredMessage) (err : String) (s : QState) : QState :=
  if connOk && pushOk then
    { s with dlq := s.dlq ++ [⟨msg, err, now⟩] }
  else s

/-- The mutation `parsedMessage.metadata.retryCount += 1` in `retryMessage`. -/
def bumpRetry (m : StoredMessage) : StoredMessage :=
  { m with metadata := { m.metadata with retryCount := m.metadata.retryCount + 1 } }

/-- Result of `retryMessage`: the queue state afterwards, and the delay that
was awaited before requeueing (`none` on the dead-letter branch, which has no
delay). -/
structure RetryResult where
  state : QState
  requeueDelay : Option Nat
deriving Repr, DecidableEq

/-- src/queue-service.js `retryMessage`.  The retry counter is incremented
first.  If the new count is at most MAX_RETRIES the message waits
`RETRY_DELAY * retryCount` and is rpushed back to the main queue tail; a
failing rpush throws into the outer catch, which calls
`moveToDeadLetterQueue(messageData, error)` with the un-incremented message
and the requeue error.  If the new count exceeds MAX_RETRIES the
un-incremented message goes to the DLQ with the fixed error
"Max retries exceeded". -/
def retryMessage (requeueOk dlqConnOk dlqPushOk : Bool) (now : Nat)
    (msg : StoredMessage) (s : QState) : RetryResult :=
  let m := bumpRetry msg
  if m.metadata.retryCount ≤ MAX_RETRIES then
    if requeueOk then
      ⟨{ s with main := s.main ++ [m] }, some (RETRY_DELAY * m.metadata.retryCount)⟩
    else
      ⟨moveToDeadLetterQueue dlqConnOk dlqPushOk now msg "Failed to requeue message" s,
        some (RETRY_DELAY * m.metadata.retryCount)⟩
  else
    ⟨moveToDeadLetterQueue dlqConnOk dlqPushOk now msg "Max retries exceeded" s, none⟩

/-- Outcome of `processMessage`: `{success: true}`, the expired short-circuit
`{success: false, reason: "Message expired"}`, or a thrown error. -/
inductive ProcOutcome where
  | ok
  | expired
  | err (reason : String)
deriving Repr, DecidableEq

/-- `parsedMessage.metadata && parsedMessage.metadata.timestamp` (0 models a
falsy value: absent metadata, absent timestamp, or timestamp 0). -/
def messageTimestamp (m : StoredMessage) : Nat := m.metadata.timestamp

/-- src/queue-service.js `processMessage`: if the timestamp is truthy and the
message is older than ten minutes, return the expired outcome without touching
the collaborator; otherwise delegate to the Monday pipeline, whose success is
`{success: true}` and whose thrown error propagates. -/
def processMessage (now : Nat) (collab : RawItem → Except String Unit)
    (m : StoredMessage) : ProcOutcome :=
  if messageTimestamp m ≠ 0 ∧ tenMinutesInMs < now - messageTimestamp m then
    .expired
  else
    match collab m.payload with
    | .ok _ => .ok
    | .error e => .err e

/-- The per-message handler inside `processMessages`: a thrown error from
`processMessage` triggers `retryMessage`; a returned result (success or the
expired outcome) is only logged and the message is dropped. -/
def handleMessage (requeueOk dlqConnOk dlqPushOk : Bool) (now : Nat)
    (collab : RawItem → Except String Unit) (msg : StoredMessage)
    (s : QState) : QState :=
  match processMessage now collab msg with
  | .err _ => (retryMessage requeueOk dlqConnOk dlqPushOk now msg s).state
  | _ => s

/-- One pop-process-fail cycle: blpop the head of the main queue, processing
throws `reason`, and `retryMessage` runs with a healthy store.  On an empty
queue nothing happens (blpop times out). -/
def failOnce (now : Nat) (reason : String) (s : QState) : QState :=
  match s.main with
  | [] => s
  | m :: rest => handleMessage true true true now (fun _ => .error reason) m { s with main := rest }

/-- `redisClient.blpop(QUEUE_NAME, 1)`: the head record or a timeout. -/
def blpop : List StoredMessage → Option StoredMessage × List StoredMessage
  | [] => (none, [])
  | x :: xs => (some x, xs)

/-- The loop body of `fetchBatch`: `n` blpop calls, collecting the non-null
results in pop order. -/
def fetchBatchAux : Nat → List StoredMessage → List StoredMessage × List StoredMessage
  | 0, q => ([], q)
  | n + 1, q =>
      match blpop q with
      | (some m, q') =>
          let r := fetchBatchAux n q'
          (m :: r.1, r.2)
      | (none, q') => fetchBatchAux n q'

/-- src/queue-service.js `fetchBatch`: up to BATCH_SIZE blpops against the
main queue. -/
def fetchBatch (q : List StoredMessage) : List StoredMessage × List StoredMessage :=
  fetchBatchAux BATCH_SIZE q

/-- `processBatch` fetching: CONCURRENT_BATCHES fetchBatch streams over the
same queue, flattened.  Each blpop removes the head atomically, so any
interleaving pops the same multiset as running the streams in sequence. -/
def fetchAllBatches : Nat → List StoredMessage → List StoredMessage × List StoredMessage
  | 0, q => ([], q)
  | n + 1, q =>
      let r := fetchBatch q
      let rest := fetchAllBatches n r.2
      (r.1 ++ rest.1, rest.2)

/-- `allMessages` in `processBatch`: the concatenation of the concurrent
batches (the `.filter(Boolean)` is a no-op here since only non-null pops are
collected). -/
def allMessages (q : List StoredMessage) : List StoredMessage :=
  (fetchAllBatches CONCURRENT_BATCHES q).1

/-- src/queue-service.js `produceMessage`: ensureConnection, validate,
timestamp, wrap with `{timestamp, retryCount: 0}` metadata, rpush to the main
queue tail, return the timestamp.  Every failure throws to the caller. -/
def produceMessage (connOk pushOk : Bool) (now : Nat) (raw : Option RawItem)
    (s : QState) : Except String (Nat × QState) :=
  if !connOk then .error "Redis connection not available"
  else if !validateMessage raw then .error "Invalid message format"
  else
    match raw with
    | some p =>
        if pushOk then
          .ok (now, { s with main := s.main ++ [⟨p, ⟨now, 0, none⟩⟩] })
        else .error "Failed to push message to queue"
    | none => .error "Invalid message format"

/-- Does the character list start with the needle? -/
def charsStartWith : List Char → List Char → Bool
  | _, [] => true
  | [], _ :: _ => false
  | a :: as, b :: bs => a == b && charsStartWith as bs

/-- Does the character list contain the needle as a contiguous run? -/
def charsContain : List Char → List Char → Bool
  | [], needle => needle.isEmpty
  | a :: rest, needle => charsStartWith (a :: rest) needle || charsContain rest needle

/-- JavaScript `String.prototype.includes`: contiguous substring search. -/
def jsIncludes (s needle : String) : Bool := charsContain s.data needle.data

/-- The authentication-error test in the bull processor:
`error.message.includes("Not Authenticated") ||
error.message.includes("Invalid or expired token")`. -/
def isAuthError (e : String) : Bool :=
  jsIncludes e "Not Authenticated" || jsIncludes e "Invalid or expired token"

/-- The complexity response of the Monday API: either GraphQL `errors`, or a
`complexity` object with `before` (remaining budget) and `query` (cost of the
pending query). -/
structure ComplexityResult where
  errors : Option String
  before : Int
  queryComplexity : Int
deriving Repr, DecidableEq

/-- src/monday-api-service.js `calculateIsToComplex`: an api throw propagates;
a response with `errors` throws; otherwise the result is
`before < 1000000 || queryComplexity > 5000000`. -/
def calculateIsToComplex (api : Except String ComplexityResult) : Except String Bool :=
  match api with
  | .error e => .error e
  | .ok r =>
      match r.errors with
      | some e => .error ("Failed to fetch complexity: " ++ e)
      | none => .ok (decide (r.before < 1000000) || decide (r.queryComplexity > 5000000))

/-- Outcome of the bull `queue.process` handler on one job:
`removed` models `job.remove()` followed by the returned rejection,
`delayed t` models `job.moveToDelayed(t)`,
`finished r` models returning the `processMessage` result (or its throw). -/
inductive JobOutcome where
  | removed (reason : String)
  | delayed (wakeAt : Nat)
  | finished (r : ProcOutcome)
deriving Repr, DecidableEq

/-- src/bull-queue-service.js `queue.process` handler: run
`calculateIsToComplex` on the job data; on a throw, an authentication error
removes the job, any other error delays it by 60000 ms; a `true` complexity
verdict delays it by 30000 ms; otherwise the job runs `processMessage` on its
own data. -/
def processJob (now : Nat) (api : Except String ComplexityResult)
    (collab : RawItem → Except String Unit) (job : StoredMessage) : JobOutcome :=
  match calculateIsToComplex api with
  | .error e =>
      if isAuthError e then .removed "Authentication failed - job deleted"
      else .delayed (now + 60000)
  | .ok true => .delayed (now + 30000)
  | .ok false => .finished (processMessage now collab job)

/-- Bull bookkeeping visible to the claims: the waiting list, the delayed set
(with their wake-up times) and, for comparison with the store-backed variant,
a dead-letter list that the bull implementation never writes to. -/
structure BullState where
  waiting : List StoredMessage
  delayed : List (Nat × StoredMessage)
  dlq : List DLQRecord
deriving Repr, DecidableEq

/-- Effect of a handler outcome on the bull bookkeeping for an active
(already fetched) job: a removed job is gone, a delayed job is appended to the
delayed set with its data untouched, and a finished job is dropped
(`removeOnComplete` / `removeOnFail` are both set). -/
def applyOutcome (s : BullState) (job : StoredMessage) : JobOutcome → BullState
  | .removed _ => s
  | .delayed t => { s with delayed := s.delayed ++ [(t, job)] }
  | .finished _ => s

/-- A concrete valid raw item used by witnesses. -/
def itemA : RawItem := ⟨some "tok", some ⟨some "board1", some "item1", some "Status"⟩⟩

/-- A second, distinct valid raw item used by witnesses. -/
def itemB : RawItem := ⟨some "tok2", some ⟨some "board2", some "item2", some "Owner"⟩⟩

/-- A concrete fresh message (admitted at epoch-ms 1000, no retries yet). -/
def msgA : StoredMessage := ⟨itemA, ⟨1000, 0, none⟩⟩

/-- A concrete message whose metadata.timestamp is falsy. -/
def msgT0 : StoredMessage := ⟨itemA, ⟨0, 0, none⟩⟩

/-- Helper: one fetch stream collects at most `n` messages. -/
theorem fetchBatchAux_fst_length_le (n : Nat) :
    ∀ q : List StoredMessage, (fetchBatchAux n q).1.length ≤ n := by
  induction n with
  | zero => intro q; simp [fetchBatchAux]
  | succ n ih =>
      intro q
      cases q with
      | nil =>
          simpa [fetchBatchAux, blpop] using Nat.le_trans (ih []) (Nat.le_succ n)
      | cons x xs =>
          simpa [fetchBatchAux, blpop] using ih xs

/-- Helper: a fetch stream on an empty queue collects nothing and leaves the
queue empty. -/
theorem fetchBatchAux_nil (n : Nat) : fetchBatchAux n [] = ([], []) := by
  induction n with
  | zero => rfl
  | succ n ih => simpa [fetchBatchAux, blpop] using ih

/-- Helper: `n` concurrent fetch streams collect at most `BATCH_SIZE * n`
messages. -/
theorem fetchAllBatches_fst_length_le (n : Nat) :
    ∀ q : List StoredMessage, (fetchAllBatches n q).1.length ≤ BATCH_SIZE * n := by
  induction n with
  | zero => intro q; simp [fetchAllBatches]
  | succ n ih =>
      intro q
      have h1 := fetchBatchAux_fst_length_le BATCH_SIZE q
      have h2 := ih (fetchBatch q).2
      simp only [fetchAllBatches, List.length_append]
      have : BATCH_SIZE * (n + 1) = BATCH_SIZE + BATCH_SIZE * n := by ring
      rw [this]
      exact Nat.add_le_add (by simpa [fetchBatch] using h1) h2

/-- C3: for every message that fails processing with the incremented
attemptCount still below maxAttempts, the retry delay is linear
(`RETRY_DELAY * retryCount`, not exponential) and the message is appended to
the tail of the main queue. -/
theorem claim_C3 (now : Nat) (msg : StoredMessage) (s : QState)
    (h : msg.metadata.retryCount + 1 < MAX_RETRIES) :
    (retryMessage true true true now msg s).requeueDelay
        = some (RETRY_DELAY * (msg.metadata.retryCount + 1)) ∧
    (retryMessage true true true now msg s).state.main = s.main ++ [bumpRetry msg] := by
  have hle : msg.metadata.retryCount + 1 ≤ MAX_RETRIES := Nat.le_of_lt h
  constructor <;> simp [retryMessage, bumpRetry, hle]

/-- C3 witness: a fresh message, after its first failure, is requeued at the
tail with delay 5000 = RETRY_DELAY * 1. -/
theorem claim_C3_witness :
    msgA.metadata.retryCount + 1 < MAX_RETRIES ∧
    ((retryMessage true true true 5000 msgA ⟨[], []⟩).requeueDelay
        = some (RETRY_DELAY * (msgA.metadata.retryCount + 1)) ∧
     (retryMessage true true true 5000 msgA ⟨[], []⟩).state.main = [] ++ [bumpRetry msgA]) :=
  ⟨by decide, claim_C3 5000 msgA ⟨[], []⟩ (by decide)⟩

/-- C4: a message whose (truthy) timestamp is more than ten minutes old at
dequeue time short-circuits to the expired outcome, and the per-message
handler then leaves both queues untouched: no requeue, no dead-letter.
(A message admitted by `produceMessage` always carries a nonzero epoch-ms
timestamp; the falsy-timestamp carve-out is claim C9.) -/
theorem claim_C4 (requeueOk dlqConnOk dlqPushOk : Bool) (now : Nat)
    (collab : RawItem → Except String Unit) (msg : StoredMessage) (s : QState)
    (h0 : messageTimestamp msg ≠ 0)
    (h1 : tenMinutesInMs < now - messageTimestamp msg) :
    processMessage now collab msg = .expired ∧
    handleMessage requeueOk dlqConnOk dlqPushOk now collab msg s = s := by
  have hp : processMessage now collab msg = .expired := by
    simp [processMessage, h0, h1]
  exact ⟨hp, by simp [handleMessage, hp]⟩

/-- C4 witness: a message admitted at ms 1000 and dequeued at ms 601001 is
expired and dropped from both queues. -/
theorem claim_C4_witness :
    (messageTimestamp msgA ≠ 0 ∧ tenMinutesInMs < 601001 - messageTimestamp msgA) ∧
    processMessage 601001 (fun _ => Except.ok ()) msgA = .expired ∧
    handleMessage true true true 601001 (fun _ => Except.ok ()) msgA ⟨[], []⟩ = ⟨[], []⟩ :=
  ⟨⟨by decide, by decide⟩,
   claim_C4 true true true 601001 (fun _ => Except.ok ()) msgA ⟨[], []⟩ (by decide) (by decide)⟩

/-- C9: when metadata.timestamp is falsy the TTL check is skipped entirely:
the outcome is never expired, however large `now` is, and processing proceeds
to the collaborator, whose verdict it reports. -/
theorem claim_C9 (now : Nat) (collab : RawItem → Except String Unit)
    (msg : StoredMessage) (h : messageTimestamp msg = 0) :
    processMessage now collab msg ≠ .expired ∧
    processMessage now collab msg =
      (match collab msg.payload with
       | .ok _ => ProcOutcome.ok
       | .error e => ProcOutcome.err e) := by
  have hm : processMessage now collab msg =
      (match collab msg.payload with
       | .ok _ => ProcOutcome.ok
       | .error e => ProcOutcome.err e) := by
    simp [processMessage, h]
  refine ⟨?_, hm⟩
  rw [hm]
  cases collab msg.payload <;> simp

/-- C9 witness: a message with timestamp 0 dequeued at ms 999999999 (far past
any TTL) still reaches the collaborator and succeeds. -/
theorem claim_C9_witness :
    messageTimestamp msgT0 = 0 ∧
    (processMessage 999999999 (fun _ => Except.ok ()) msgT0 ≠ .expired ∧
     processMessage 999999999 (fun _ => Except.ok ()) msgT0 =
      (match (fun _ => Except.ok ()) msgT0.payload with
       | .ok _ => ProcOutcome.ok
       | .error e => ProcOutcome.err e)) :=
  ⟨rfl, claim_C9 999999999 (fun _ => Except.ok ()) msgT0 rfl⟩

/-- C1 counterexample: with MAX_RETRIES = 3, a fresh message that fails
processing 3 times is NOT in the dead-letter queue after the 3rd failure
(the requeue guard is `retryCount <= MAX_RETRIES` after the increment, so the
3rd failure still requeues with retryCount 3): the DLQ is empty and the main
queue still holds the message. -/
theorem claim_C1_counterexample :
    (failOnce 1000 "boom" (failOnce 1000 "boom" (failOnce 1000 "boom"
        ⟨[msgA], []⟩))).dlq.length = 0 ∧
    (failOnce 1000 "boom" (failOnce 1000 "boom" (failOnce 1000 "boom"
        ⟨[msgA], []⟩))).main.length = 1 := by
  constructor <;> rfl

/-- C1 amended: a fresh, unexpired message that fails processing 4 times is,
after the 4th failure, present exactly once in the dead-letter queue, with the
error field equal to the fixed string "Max retries exceeded" (not the reason
of the triggering failure, which `retryMessage` never receives), and the main
queue is empty. -/
theorem claim_C1_amended (p : RawItem) (ts now : Nat) (reason : String)
    (h0 : ts ≠ 0) (h1 : now - ts ≤ tenMinutesInMs) :
    (failOnce now reason (failOnce now reason (failOnce now reason (failOnce now reason
        ⟨[⟨p, ⟨ts, 0, none⟩⟩], []⟩)))).main = [] ∧
    (failOnce now reason (failOnce now reason (failOnce now reason (failOnce now reason
        ⟨[⟨p, ⟨ts, 0, none⟩⟩], []⟩)))).dlq
      = [⟨⟨p, ⟨ts, 3, none⟩⟩, "Max retries exceeded", now⟩] := by
  have hnot : ¬ tenMinutesInMs < now - ts := Nat.not_lt.mpr h1
  constructor <;>
    simp [failOnce, handleMessage, processMessage, messageTimestamp, retryMessage,
      bumpRetry, moveToDeadLetterQueue, MAX_RETRIES, h0, hnot]

/-- C1 amended witness: the concrete 4-failure run at now = 1000. -/
theorem claim_C1_amended_witness :
    ((1000 : Nat) ≠ 0 ∧ (1000 : Nat) - 1000 ≤ tenMinutesInMs) ∧
    ((failOnce 1000 "boom" (failOnce 1000 "boom" (failOnce 1000 "boom" (failOnce 1000 "boom"
        ⟨[⟨itemA, ⟨1000, 0, none⟩⟩], []⟩)))).main = [] ∧
     (failOnce 1000 "boom" (failOnce 1000 "boom" (failOnce 1000 "boom" (failOnce 1000 "boom"
        ⟨[⟨itemA, ⟨1000, 0, none⟩⟩], []⟩)))).dlq
      = [⟨⟨itemA, ⟨1000, 3, none⟩⟩, "Max retries exceeded", 1000⟩]) :=
  ⟨⟨by decide, by decide⟩, claim_C1_amended itemA 1000 1000 "boom" (by decide) (by decide)⟩

/-- C2 counterexample: a store failure on the requeue rpush (requeueOk =
false) moves the message OUT of the main-queue retry path into the DLQ with
the requeue error, and if the DLQ store access also fails the message
vanishes from both queues — it is not retried after a reconnect delay. -/
theorem claim_C2_counterexample :
    ((retryMessage false true true 77 msgA ⟨[], []⟩).state.main = [] ∧
     (retryMessage false true true 77 msgA ⟨[], []⟩).state.dlq
        = [⟨msgA, "Failed to requeue message", 77⟩]) ∧
    (retryMessage false false false 77 msgA ⟨[], []⟩).state = ⟨[], []⟩ := by
  refine ⟨⟨rfl, rfl⟩, rfl⟩

/-- C2 amended: when the store is unavailable for the requeue rpush of a
message that still has retries left, the message is not retried in the main
queue: it is pushed to the dead-letter queue with the error
"Failed to requeue message"; when the store is also unavailable for that DLQ
push, the failure is only logged and the message is dropped from both
queues. -/
theorem claim_C2_amended (now : Nat) (msg : StoredMessage) (s : QState)
    (h : msg.metadata.retryCount + 1 ≤ MAX_RETRIES) :
    (retryMessage false true true now msg s).state
        = { s with dlq := s.dlq ++ [⟨msg, "Failed to requeue message", now⟩] } ∧
    (retryMessage false false false now msg s).state = s := by
  constructor <;> simp [retryMessage, bumpRetry, moveToDeadLetterQueue, h]

/-- C2 amended witness: the fresh message msgA under an unavailable store. -/
theorem claim_C2_amended_witness :
    msgA.metadata.retryCount + 1 ≤ MAX_RETRIES ∧
    ((retryMessage false true true 77 msgA ⟨[], []⟩).state
        = ⟨[], [] ++ [⟨msgA, "Failed to requeue message", 77⟩]⟩ ∧
     (retryMessage false false false 77 msgA ⟨[], []⟩).state = ⟨[], []⟩) :=
  ⟨by decide, claim_C2_amended 77 msgA ⟨[], []⟩ (by decide)⟩

/-- C5: an authentication error from the budget collaborator removes the job
terminally — the bull bookkeeping is unchanged, so the active job lands in
neither the waiting list, the delayed set, nor the dead-letter list, and the
outcome is a returned rejection, not a throw, so bull does not retry it —
while any other collaborator error defers the job by 60000 ms. -/
theorem claim_C5 (now : Nat) (e1 e2 : String)
    (collab : RawItem → Except String Unit) (job : StoredMessage) (s : BullState)
    (h1 : isAuthError e1 = true) (h2 : isAuthError e2 = false) :
    processJob now (.error e1) collab job = .removed "Authentication failed - job deleted" ∧
    applyOutcome s job (processJob now (.error e1) collab job) = s ∧
    processJob now (.error e2) collab job = .delayed (now + 60000) := by
  have p1 : processJob now (.error e1) collab job
      = .removed "Authentication failed - job deleted" := by
    simp [processJob, calculateIsToComplex, h1]
  refine ⟨p1, by rw [p1]; rfl, by simp [processJob, calculateIsToComplex, h2]⟩

/-- C5 witness: the literal "Not Authenticated" error removes the job and
leaves the bull state unchanged; a generic "socket hang up" error defers it
by 60 seconds. -/
theorem claim_C5_witness :
    (isAuthError "Not Authenticated" = true ∧ isAuthError "socket hang up" = false) ∧
    (processJob 5 (.error "Not Authenticated") (fun _ => Except.ok ()) msgA
          = .removed "Authentication failed - job deleted" ∧
     applyOutcome ⟨[], [], []⟩ msgA
          (processJob 5 (.error "Not Authenticated") (fun _ => Except.ok ()) msgA)
          = ⟨[], [], []⟩ ∧
     processJob 5 (.error "socket hang up") (fun _ => Except.ok ()) msgA
          = .delayed (5 + 60000)) :=
  ⟨⟨by decide, by decide⟩,
   claim_C5 5 "Not Authenticated" "socket hang up" (fun _ => Except.ok ()) msgA
      ⟨[], [], []⟩ (by decide) (by decide)⟩

/-- C6: a complexity report with remaining budget below the 1000000 low-water
mark or query cost above the 5000000 high-water mark makes the job defer by
the fixed 30000 ms delay, and the deferred entry carries the job data
unchanged — in particular metadata.retryCount is not incremented. -/
theorem claim_C6 (now : Nat) (r : ComplexityResult)
    (collab : RawItem → Except String Unit) (job : StoredMessage) (s : BullState)
    (he : r.errors = none) (h : r.before < 1000000 ∨ r.queryComplexity > 5000000) :
    calculateIsToComplex (.ok r) = .ok true ∧
    processJob now (.ok r) collab job = .delayed (now + 30000) ∧
    applyOutcome s job (processJob now (.ok r) collab job)
      = { s with delayed := s.delayed ++ [(now + 30000, job)] } := by
  have hc : calculateIsToComplex (.ok r) = .ok true := by
    rcases h with h | h <;> simp [calculateIsToComplex, he, h]
  have hp : processJob now (.ok r) collab job = .delayed (now + 30000) := by
    simp [processJob, hc]
  exact ⟨hc, hp, by rw [hp]; rfl⟩

/-- C6 witness: the spec scenario, remaining = 500000 against threshold
1000000: the job msgA (retryCount 0) is deferred 30 seconds and reappears
with retryCount still 0. -/
theorem claim_C6_witness :
    ((⟨none, 500000, 0⟩ : ComplexityResult).errors = none ∧
     ((⟨none, 500000, 0⟩ : ComplexityResult).before < 1000000 ∨
      (⟨none, 500000, 0⟩ : ComplexityResult).queryComplexity > 5000000)) ∧
    (calculateIsToComplex (.ok ⟨none, 500000, 0⟩) = .ok true ∧
     processJob 9 (.ok ⟨none, 500000, 0⟩) (fun _ => Except.ok ()) msgA = .delayed (9 + 30000) ∧
     applyOutcome ⟨[], [], []⟩ msgA (processJob 9 (.ok ⟨none, 500000, 0⟩) (fun _ => Except.ok ()) msgA)
      = ⟨[], [] ++ [(9 + 30000, msgA)], []⟩) :=
  ⟨⟨rfl, Or.inl (by decide)⟩,
   claim_C6 9 ⟨none, 500000, 0⟩ (fun _ => Except.ok ()) msgA ⟨[], [], []⟩ rfl
      (Or.inl (by decide))⟩

/-- C7: on a connected store, an item that fails validation (unparseable, or
with a missing or falsy token, board id, item id or text) makes
`produceMessage` throw "Invalid message format" before any push — the state
is only produced on the success path, so nothing is enqueued — while a valid
item is stamped with `{timestamp: now, retryCount: 0}` metadata, appended
once to the main queue tail, and its admission timestamp is returned as the
correlation identifier. -/
theorem claim_C7 (now : Nat) (pushOk : Bool) (raw : Option RawItem) (p : RawItem)
    (s s2 : QState)
    (hbad : validateMessage raw = false) (hgood : validateMessage (some p) = true) :
    produceMessage true pushOk now raw s = .error "Invalid message format" ∧
    produceMessage true true now (some p) s2
      = .ok (now, { s2 with main := s2.main ++ [⟨p, ⟨now, 0, none⟩⟩] }) := by
  constructor
  · simp [produceMessage, hbad]
  · simp [produceMessage, hgood]

/-- C7 witness: an item with an empty token is rejected; itemA is admitted at
ms 42 with a single tail push and correlation id 42. -/
theorem claim_C7_witness :
    (validateMessage (some ⟨some "", some ⟨some "b", some "i", some "t"⟩⟩) = false ∧
     validateMessage (some itemA) = true) ∧
    (produceMessage true true 42 (some ⟨some "", some ⟨some "b", some "i", some "t"⟩⟩) ⟨[], []⟩
        = .error "Invalid message format" ∧
     produceMessage true true 42 (some itemA) ⟨[], []⟩
        = .ok (42, ⟨[] ++ [⟨itemA, ⟨42, 0, none⟩⟩], []⟩)) :=
  ⟨⟨by decide, by decide⟩,
   claim_C7 42 true (some ⟨some "", some ⟨some "b", some "i", some "t"⟩⟩) itemA
      ⟨[], []⟩ ⟨[], []⟩ (by decide) (by decide)⟩

/-- C8: the combined fetch of one `processBatch` cycle returns at most
`BATCH_SIZE * CONCURRENT_BATCHES` messages, and on an empty main queue it
returns zero messages (each blpop times out to null) rather than an error. -/
theorem claim_C8 (q : List StoredMessage) :
    (allMessages q).length ≤ BATCH_SIZE * CONCURRENT_BATCHES ∧
    allMessages [] = [] := by
  constructor
  · simpa [allMessages] using fetchAllBatches_fst_length_le CONCURRENT_BATCHES q
  · show (fetchAllBatches CONCURRENT_BATCHES []).1 = []
    simp [CONCURRENT_BATCHES, fetchAllBatches, fetchBatch, fetchBatchAux_nil]

/-- C10: the correlation identifier returned by `produceMessage` is exactly
the admission timestamp, so any two valid items admitted at the same clock
millisecond — even different items against different queue states — receive
the identical identifier `now`: the returned id does not uniquely identify a
message. -/
theorem claim_C10 (now : Nat) (r1 r2 : RawItem) (s1 s2 : QState)
    (h1 : validateMessage (some r1) = true) (h2 : validateMessage (some r2) = true) :
    ∃ q1 q2 : QState,
      produceMessage true true now (some r1) s1 = .ok (now, q1) ∧
      produceMessage true true now (some r2) s2 = .ok (now, q2) := by
  refine ⟨{ s1 with main := s1.main ++ [⟨r1, ⟨now, 0, none⟩⟩] },
          { s2 with main := s2.main ++ [⟨r2, ⟨now, 0, none⟩⟩] }, ?_, ?_⟩ <;>
    simp [produceMessage, h1, h2]

/-- C10 witness: the two distinct items itemA and itemB admitted at the same
millisecond 1234 both receive the correlation identifier 1234. -/
theorem claim_C10_witness :
    (itemA ≠ itemB ∧ validateMessage (some itemA) = true ∧ validateMessage (some itemB) = true) ∧
    (∃ q1 q2 : QState,
      produceMessage true true 1234 (some itemA) ⟨[], []⟩ = .ok (1234, q1) ∧
      produceMessage true true 1234 (some itemB) ⟨[], []⟩ = .ok (1234, q2)) :=
  ⟨⟨by decide, by decide, by decide⟩,
   claim_C10 1234 itemA itemB ⟨[], []⟩ ⟨[], []⟩ (by decide) (by decide)⟩

end NameApp
